import Mathlib

/-!
# RevenuePilot — Guardian policy engine and pipeline orchestrator

Shallow embedding of `src/orchestrator.py` (classes `GuardianAgent` and
`RevenuePilotOrchestrator`).  Python dicts with optional keys are embedded as
structures with `Option` fields (`dict.get(k, default)` becomes
`Option.getD`), floats as `ℚ`, and the mutable queue state of the
orchestrator as an explicit state record threaded through the operations.
Log statements and wall-clock timestamps (`datetime.now()`) are omitted.
-/

namespace RevenuePilot

/-- The `GuardianVerdict` enum from `orchestrator.py`. -/
inductive GuardianVerdict where
  | AUTO_EXECUTE
  | HUMAN_APPROVAL_REQUIRED
  | HOLD_FOR_REVIEW
deriving DecidableEq, Repr

/-- One step dict from `strategy["strategy"]["steps"]`.  Only the keys read by
the Guardian are modelled; each is optional because the code accesses them
with `.get`. -/
structure ActionStep where
  step : Option Nat
  action : Option String
  tone : Option String
deriving DecidableEq, Repr

/-- The nested `strategy["strategy"]` dict produced by StrategyAgent:
a type tag and the list of steps. -/
structure StrategyInner where
  type? : Option String
  steps : List ActionStep
deriving DecidableEq, Repr

/-- A strategy dict from StrategyAgent.  `account_id` and `account_name` are
accessed with brackets in `evaluate_strategy` (required keys); the nested
`strategy` dict and `estimated_recovery` are accessed with `.get`. -/
structure Strategy where
  account_id : String
  account_name : String
  inner : Option StrategyInner
  estimated_recovery : Option ℚ
deriving DecidableEq, Repr

/-- A risk-assessment dict from RiskAgent, as consumed downstream:
`account_id` and `risk_score` are read with brackets in
`process_revenue_signals`; the three scoring fields are read with `.get`
in `score_action`. -/
structure AccountRisk where
  account_id : String
  risk_score : ℚ
  risk_level : Option String
  escalation_required : Option Bool
  recovery_probability : Option ℚ
deriving DecidableEq, Repr

/-- The empty dict `{}` used as the default account-risk context in
`_run_guardian` (`risk_by_account.get(account_id, {})`): every `.get` on it
yields the default, and the bracket-accessed fields are never read on it. -/
def empty_account_risk : AccountRisk :=
  { account_id := "", risk_score := 0, risk_level := none
    escalation_required := none, recovery_probability := none }

/-- One entry of the `risk_factors` list built by `score_action`.  The source
appends human-readable f-strings; we record the same events with their data
as a tagged value instead of formatted text. -/
inductive Factor where
  | actionType (action_type : String) (base : ℚ)
  | tone (tone : String)
  | highRecovery (recovery : ℚ)
  | moderateRecovery (recovery : ℚ)
  | riskLevel (risk_level : String) (risk_bonus : ℚ)
  | escalationRequired
  | lowRecoveryProbability (p : ℚ)
  | moderateRecoveryProbability (p : ℚ)
deriving DecidableEq, Repr

/-- Python `round(x, 2)` from the source.  All scores reachable in the code are
integer multiples of `1/20`, so no rounding ties arise and round-half-up
agrees with Python's banker's rounding on every reachable value. -/
def round2 (q : ℚ) : ℚ := (round (q * 100) : ℤ) / 100

/-- One entry of the `step_decisions` list built by `evaluate_strategy`
(lines 178–184 of `orchestrator.py`). -/
structure StepDecision where
  step : Option Nat
  action : Option String
  risk_score : ℚ
  verdict : GuardianVerdict
  risk_factors : List Factor
deriving DecidableEq, Repr

/-- The decision dict returned by `evaluate_strategy` (lines 190–201).
The `evaluated_at` wall-clock timestamp is omitted. -/
structure StrategyDecision where
  account_id : String
  account_name : String
  strategy_type : Option String
  estimated_recovery : ℚ
  overall_risk_score : ℚ
  overall_verdict : GuardianVerdict
  step_decisions : List StepDecision
  strategy : Strategy
  account_risk : AccountRisk
deriving DecidableEq, Repr

namespace GuardianAgent

/-- Constant `GuardianAgent.AUTO_EXECUTE_THRESHOLD`. -/
def AUTO_EXECUTE_THRESHOLD : ℚ := 40 / 100

/-- Constant `GuardianAgent.HOLD_THRESHOLD`. -/
def HOLD_THRESHOLD : ℚ := 70 / 100

/-- The `GuardianAgent.ACTION_BASE_RISK` lookup table. -/
def ACTION_BASE_RISK : List (String × ℚ) :=
  [ ("email", 30 / 100)
  , ("slack", 10 / 100)
  , ("crm_update", 20 / 100)
  , ("escalation", 5 / 100)
  , ("offer_incentive", 35 / 100)
  , ("offer", 35 / 100)
  , ("late_fee_waiver", 40 / 100) ]

/-- The inline `{"LOW": 0.0, "MEDIUM": 0.05, "HIGH": 0.20}` table used for the
account churn-risk bonus in `score_action`. -/
def RISK_LEVEL_BONUS : List (String × ℚ) :=
  [("LOW", 0), ("MEDIUM", 5 / 100), ("HIGH", 20 / 100)]

/-- Method `GuardianAgent.score_action`: scores a single action step.  Mirrors the
sequential accumulation of the source; returns the capped, rounded score and
the factor list.  Each `if` of the source guards one score update and one
factor append; here the same condition guards the two updates as two
separate `if` expressions. -/
def score_action (action_step : ActionStep) (strategy : Strategy)
    (account_risk : AccountRisk) : ℚ × List Factor :=
  let score : ℚ := 0
  let factors : List Factor := []
  -- 1. Action type base risk
  let action_type := action_step.action.getD "email"
  let base := (ACTION_BASE_RISK.lookup action_type).getD (25 / 100)
  let score := score + base
  let factors := factors ++ [Factor.actionType action_type base]
  -- 2. Tone escalation penalty
  let tone := action_step.tone.getD ""
  let score :=
    if tone = "urgent" ∨ tone = "escalated" then score + 15 / 100 else score
  let factors :=
    if tone = "urgent" ∨ tone = "escalated" then
      factors ++ [Factor.tone tone]
    else factors
  -- 3. Recovery value / financial impact
  let recovery := strategy.estimated_recovery.getD 0
  let score :=
    if recovery > 50000 then score + 30 / 100
    else if recovery > 10000 then score + 15 / 100
    else score
  let factors :=
    if recovery > 50000 then factors ++ [Factor.highRecovery recovery]
    else if recovery > 10000 then factors ++ [Factor.moderateRecovery recovery]
    else factors
  -- 4. Account churn risk level
  let risk_level := account_risk.risk_level.getD "LOW"
  let risk_bonus := (RISK_LEVEL_BONUS.lookup risk_level).getD 0
  let score := if risk_bonus > 0 then score + risk_bonus else score
  let factors :=
    if risk_bonus > 0 then
      factors ++ [Factor.riskLevel risk_level risk_bonus]
    else factors
  -- 5. Escalation required flag
  let score :=
    if account_risk.escalation_required.getD false then score + 15 / 100
    else score
  let factors :=
    if account_risk.escalation_required.getD false then
      factors ++ [Factor.escalationRequired]
    else factors
  -- 6. Recovery probability
  let recovery_prob := account_risk.recovery_probability.getD (50 / 100)
  let score :=
    if recovery_prob < 30 / 100 then score + 25 / 100
    else if recovery_prob < 50 / 100 then score + 10 / 100
    else score
  let factors :=
    if recovery_prob < 30 / 100 then
      factors ++ [Factor.lowRecoveryProbability recovery_prob]
    else if recovery_prob < 50 / 100 then
      factors ++ [Factor.moderateRecoveryProbability recovery_prob]
    else factors
  -- Cap at 1.0
  (round2 (min score 1), factors)

/-- Method `GuardianAgent.get_verdict`. -/
def get_verdict (risk_score : ℚ) : GuardianVerdict :=
  if risk_score < AUTO_EXECUTE_THRESHOLD then .AUTO_EXECUTE
  else if risk_score < HOLD_THRESHOLD then .HUMAN_APPROVAL_REQUIRED
  else .HOLD_FOR_REVIEW

/-- Delta 1 of `score_action`: base risk by action kind (lines 106–108). -/
def base_delta (action_step : ActionStep) : ℚ :=
  (ACTION_BASE_RISK.lookup (action_step.action.getD "email")).getD (25 / 100)

/-- Delta 2 of `score_action`: tone escalation penalty (lines 112–115). -/
def tone_delta (action_step : ActionStep) : ℚ :=
  let tone := action_step.tone.getD ""
  if tone = "urgent" ∨ tone = "escalated" then 15 / 100 else 0

/-- Delta 3 of `score_action`: recovery-value tier (lines 118–124). -/
def recovery_delta (strategy : Strategy) : ℚ :=
  let recovery := strategy.estimated_recovery.getD 0
  if recovery > 50000 then 30 / 100
  else if recovery > 10000 then 15 / 100
  else 0

/-- Delta 4 of `score_action`: account churn-risk tier (lines 127–131). -/
def risk_level_delta (account_risk : AccountRisk) : ℚ :=
  let risk_level := account_risk.risk_level.getD "LOW"
  let risk_bonus := (RISK_LEVEL_BONUS.lookup risk_level).getD 0
  if risk_bonus > 0 then risk_bonus else 0

/-- Delta 5 of `score_action`: escalation-required flag (lines 134–136). -/
def escalation_delta (account_risk : AccountRisk) : ℚ :=
  if account_risk.escalation_required.getD false then 15 / 100 else 0

/-- Delta 6 of `score_action`: recovery-probability tier (lines 139–145). -/
def prob_delta (account_risk : AccountRisk) : ℚ :=
  let recovery_prob := account_risk.recovery_probability.getD (50 / 100)
  if recovery_prob < 30 / 100 then 25 / 100
  else if recovery_prob < 50 / 100 then 10 / 100
  else 0

/-- The uncapped, unrounded sum of the six applicable deltas of
`score_action`. -/
def raw_sum (action_step : ActionStep) (strategy : Strategy)
    (account_risk : AccountRisk) : ℚ :=
  base_delta action_step + tone_delta action_step + recovery_delta strategy +
    risk_level_delta account_risk + escalation_delta account_risk +
    prob_delta account_risk

/-- The `for step in steps` loop of `evaluate_strategy` (lines 175–186):
builds the list of step decisions and updates `worst_score`
(`if score > worst_score: worst_score = score`). -/
def evaluate_steps (strategy : Strategy) (account_risk : AccountRisk) :
    List ActionStep → ℚ → List StepDecision × ℚ
  | [], worst_score => ([], worst_score)
  | step :: rest, worst_score =>
      let sf := score_action step strategy account_risk
      let verdict := get_verdict sf.1
      let d : StepDecision :=
        { step := step.step, action := step.action, risk_score := sf.1
          verdict := verdict, risk_factors := sf.2 }
      let worst := if sf.1 > worst_score then sf.1 else worst_score
      let r := evaluate_steps strategy account_risk rest worst
      (d :: r.1, r.2)

/-- Method `GuardianAgent.evaluate_strategy` (lines 159–201). -/
def evaluate_strategy (strategy : Strategy) (account_risk : AccountRisk) :
    StrategyDecision :=
  let steps := (strategy.inner.map StrategyInner.steps).getD []
  let r := evaluate_steps strategy account_risk steps 0
  let worst_score := r.2
  let overall_verdict := get_verdict worst_score
  { account_id := strategy.account_id
    account_name := strategy.account_name
    strategy_type := strategy.inner.bind StrategyInner.type?
    estimated_recovery := strategy.estimated_recovery.getD 0
    overall_risk_score := round2 worst_score
    overall_verdict := overall_verdict
    step_decisions := r.1
    strategy := strategy
    account_risk := account_risk }

end GuardianAgent

/-! ## Orchestrator state and operations (`RevenuePilotOrchestrator`) -/

/-- The two Shadow Operator gating queues owned by
`RevenuePilotOrchestrator` (lines 228–229); the rest of the orchestrator's
state (registered agents, message queue, run history) does not interact with
gating and is not modelled. -/
structure OrchState where
  guardian_approval_queue : List StrategyDecision
  guardian_hold_queue : List StrategyDecision
deriving DecidableEq, Repr

/-- A freshly constructed orchestrator: both queues empty (lines 228–229). -/
def init_state : OrchState := { guardian_approval_queue := [], guardian_hold_queue := [] }

/-- The queue search-and-remove of `approve_guardian_decision`
(lines 379–387): scan for the first item whose `account_id` matches and
remove it; returns the removed item (if any) and the remaining queue. -/
def removeFirst (account_id : String) :
    List StrategyDecision → Option StrategyDecision × List StrategyDecision
  | [] => (none, [])
  | d :: ds =>
      if d.account_id = account_id then (some d, ds)
      else
        let r := removeFirst account_id ds
        (r.1, d :: r.2)

/-- The result dict of `approve_guardian_decision` (lines 389–418): one of
the three `status` values with the data each carries.  Timestamps and the
execution collaborator's payload are omitted. -/
inductive GuardianOutcome where
  | not_found (account_id : String)
  | executed (account_id : String) (approver_notes : String)
      (guardian_risk_score : ℚ)
  | rejected (account_id : String) (approver_notes : String)
      (guardian_risk_score : ℚ)
deriving DecidableEq, Repr

/-- Full effect of one `approve_guardian_decision` call: the outcome dict,
the strategies handed to the ExecutionAgent during the call (the payload of
the `_dispatch_agent(AgentType.EXECUTION, …)` call, empty when no dispatch
happens), and the queue state after the call. -/
structure ReconcileResult where
  outcome : GuardianOutcome
  dispatched : List Strategy
  state : OrchState
deriving DecidableEq, Repr

/-- Method `RevenuePilotOrchestrator.approve_guardian_decision` (lines 365–418):
search both queues for `account_id`, remove the first match, then either
dispatch the preserved strategy for execution (approved) or report a
rejected outcome (not approved); no match gives a `not_found` outcome. -/
def approve_guardian_decision (st : OrchState) (account_id : String)
    (approved : Bool) (approver_notes : String) : ReconcileResult :=
  let ra := removeFirst account_id st.guardian_approval_queue
  match ra.1 with
  | some target =>
      let st' : OrchState := { st with guardian_approval_queue := ra.2 }
      if approved then
        { outcome := .executed account_id approver_notes target.overall_risk_score
          dispatched := [target.strategy], state := st' }
      else
        { outcome := .rejected account_id approver_notes target.overall_risk_score
          dispatched := [], state := st' }
  | none =>
      let rh := removeFirst account_id st.guardian_hold_queue
      match rh.1 with
      | some target =>
          let st' : OrchState := { st with guardian_hold_queue := rh.2 }
          if approved then
            { outcome := .executed account_id approver_notes target.overall_risk_score
              dispatched := [target.strategy], state := st' }
          else
            { outcome := .rejected account_id approver_notes target.overall_risk_score
              dispatched := [], state := st' }
      | none => { outcome := .not_found account_id, dispatched := [], state := st }

/-- Lookup `risk_by_account.get(account_id, {})` in `_run_guardian` (line 324). -/
def lookup_risk (risk_by_account : List (String × AccountRisk))
    (account_id : String) : AccountRisk :=
  (risk_by_account.lookup account_id).getD empty_account_risk

/-- The Guardian decision `_run_guardian` computes for one strategy
(line 325). -/
def decision_for (risk_by_account : List (String × AccountRisk))
    (strategy : Strategy) : StrategyDecision :=
  GuardianAgent.evaluate_strategy strategy
    (lookup_risk risk_by_account strategy.account_id)

/-- Result of the `for strategy in strategies` loop of `_run_guardian`
(lines 318–344): the three local buckets plus the updated queue state. -/
structure GuardianLoopResult where
  auto_execute : List Strategy
  approval_required : List StrategyDecision
  held : List StrategyDecision
  state : OrchState
deriving DecidableEq, Repr

/-- The bucket-sorting loop of `_run_guardian` (lines 322–344): each
decision goes to exactly one bucket by its overall verdict; approval-required
and held decisions are also appended to the corresponding global queue. -/
def guardian_loop (risk_by_account : List (String × AccountRisk)) :
    List Strategy → OrchState → GuardianLoopResult
  | [], st => { auto_execute := [], approval_required := [], held := [], state := st }
  | strategy :: rest, st =>
      let decision := decision_for risk_by_account strategy
      if decision.overall_verdict = .AUTO_EXECUTE then
        let r := guardian_loop risk_by_account rest st
        { r with auto_execute := decision.strategy :: r.auto_execute }
      else if decision.overall_verdict = .HUMAN_APPROVAL_REQUIRED then
        let r := guardian_loop risk_by_account rest
          { st with guardian_approval_queue :=
              st.guardian_approval_queue ++ [decision] }
        { r with approval_required := decision :: r.approval_required }
      else
        let r := guardian_loop risk_by_account rest
          { st with guardian_hold_queue := st.guardian_hold_queue ++ [decision] }
        { r with held := decision :: r.held }

/-- One row of the `approval_queue_snapshot` (lines 351–360). -/
structure SnapshotRow where
  account_id : String
  account_name : String
  risk_score : ℚ
  verdict : GuardianVerdict
  estimated_recovery : ℚ
deriving DecidableEq, Repr

/-- The audit summary dict built by `_run_guardian` (lines 346–361). -/
structure GuardianSummary where
  evaluated : Nat
  auto_executed : Nat
  pending_human_approval : Nat
  held_for_review : Nat
  approval_queue_snapshot : List SnapshotRow
deriving DecidableEq, Repr

/-- Projection of a decision into a snapshot row (lines 352–358). -/
def snapshot_row (d : StrategyDecision) : SnapshotRow :=
  { account_id := d.account_id, account_name := d.account_name
    risk_score := d.overall_risk_score, verdict := d.overall_verdict
    estimated_recovery := d.estimated_recovery }

/-- Method `RevenuePilotOrchestrator._run_guardian` (lines 307–363): runs the loop
and builds the summary; returns the auto-execute list, the summary, and the
updated queue state. -/
def run_guardian (risk_by_account : List (String × AccountRisk))
    (strategies : List Strategy) (st : OrchState) :
    List Strategy × GuardianSummary × OrchState :=
  let r := guardian_loop risk_by_account strategies st
  ( r.auto_execute
  , { evaluated := strategies.length
      auto_executed := r.auto_execute.length
      pending_human_approval := r.approval_required.length
      held_for_review := r.held.length
      approval_queue_snapshot := (r.approval_required ++ r.held).map snapshot_row }
  , r.state )

/-- The external collaborators of `process_revenue_signals`, abstracted as
functions (each models the `await self._dispatch_agent(…)` call for one
agent type).  `α` is the caller's account type, `β` the DataAgent payload,
`γ` the ExecutionAgent payload and `δ` the AuditAgent payload. -/
structure Collaborators (α β γ δ : Type) where
  data_agent : List α → β
  risk_agent : β → List AccountRisk
  strategy_agent : List AccountRisk → List Strategy
  execution_agent : List Strategy → γ
  audit_agent : β → List AccountRisk → List Strategy → GuardianSummary → γ → δ

/-- Inputs handed to the downstream collaborators during one run, recorded
for the statements below: what PLAN handed to the StrategyAgent and what
EXECUTE handed to the ExecutionAgent. -/
structure PipelineTrace where
  strategy_input : List AccountRisk
  execution_input : List Strategy
deriving DecidableEq, Repr

/-- Method `RevenuePilotOrchestrator.process_revenue_signals` (lines 239–303): the
five sequential stages.  Each `await self._dispatch_agent(...)` resolves
sequentially in the source, so the run is a sequential composition. -/
def process_revenue_signals {α β γ δ : Type} (c : Collaborators α β γ δ)
    (accounts : List α) (st : OrchState) : δ × OrchState × PipelineTrace :=
  -- Step 1: DataAgent — fetch risk signals
  let data_task := c.data_agent accounts
  -- Step 2: RiskAgent — score every account
  let risk_results := c.risk_agent data_task
  let risk_by_account := risk_results.map fun r => (r.account_id, r)
  -- Step 3: StrategyAgent — only accounts with risk_score > 0.7
  let high_risk_accounts := risk_results.filter fun r => r.risk_score > 7 / 10
  let strategies := c.strategy_agent high_risk_accounts
  -- Step 4: GuardianAgent — gate every action
  let g := run_guardian risk_by_account strategies st
  -- Step 5: ExecutionAgent — only Guardian-cleared strategies
  let execution_results := c.execution_agent g.1
  -- Step 6: AuditAgent — full trace
  let audit_log :=
    c.audit_agent data_task risk_results strategies g.2.1 execution_results
  (audit_log, g.2.2, ⟨high_risk_accounts, g.1⟩)

/-! ## Dynamically-typed scoring inputs

Python is dynamically typed: an optional field of the input dicts may hold a
value of the wrong type.  For the failure-semantics analysis of
`score_action` we re-embed its inputs with scalar Python values and give the
operations the source applies to them their Python semantics — in
particular, ordered comparison between a string and a number raises
`TypeError`, embedded as `Except.error`. -/

/-- A scalar Python value: number (int/float), string, or bool. -/
inductive PyVal where
  | pnum (q : ℚ)
  | pstr (s : String)
  | pbool (b : Bool)
deriving DecidableEq, Repr

/-- Python truthiness of a scalar (used by `if account_risk.get(...)`). -/
def py_truthy : PyVal → Bool
  | .pnum q => decide (q ≠ 0)
  | .pstr s => decide (s ≠ "")
  | .pbool b => b

/-- Numeric view of a scalar: Python bools are ints (`True == 1`); strings
have no numeric view. -/
def py_num : PyVal → Option ℚ
  | .pnum q => some q
  | .pbool b => some (if b then 1 else 0)
  | .pstr _ => none

/-- Python `v > c` for a numeric constant `c`: raises `TypeError` when `v`
is a string. -/
def py_gt (v : PyVal) (c : ℚ) : Except String Bool :=
  match py_num v with
  | some q => .ok (decide (q > c))
  | none => .error "TypeError"

/-- Python `v < c` for a numeric constant `c`: raises `TypeError` when `v`
is a string. -/
def py_lt (v : PyVal) (c : ℚ) : Except String Bool :=
  match py_num v with
  | some q => .ok (decide (q < c))
  | none => .error "TypeError"

/-- String view of a scalar, for lookups in string-keyed dicts: a non-string
scalar equals no string key, so the lookup falls through to the default. -/
def py_str_key : PyVal → Option String
  | .pstr s => some s
  | _ => none

/-- An action-step dict with dynamically-typed optional fields. -/
structure ActionStepDyn where
  action : Option PyVal
  tone : Option PyVal
deriving DecidableEq, Repr

/-- A strategy dict with a dynamically-typed recovery value. -/
structure StrategyDyn where
  estimated_recovery : Option PyVal
deriving DecidableEq, Repr

/-- A risk-context dict with dynamically-typed optional scoring fields. -/
structure AccountRiskDyn where
  risk_level : Option PyVal
  escalation_required : Option PyVal
  recovery_probability : Option PyVal
deriving DecidableEq, Repr

namespace GuardianAgent

/-- The score computation of `score_action` over dynamically-typed inputs,
following the source line by line; comparisons are evaluated in the source's
order and lazily (an `elif` guard is only evaluated when the preceding guard
is false), so an error is raised exactly where Python would raise.  The
factor strings never raise once the comparisons succeeded, so only the score
is returned. -/
def score_action_dyn (action_step : ActionStepDyn) (strategy : StrategyDyn)
    (account_risk : AccountRiskDyn) : Except String ℚ := do
  -- 1. Action type base risk (`dict.get` never raises on scalar keys)
  let action_type := action_step.action.getD (.pstr "email")
  let base := ((py_str_key action_type).bind
    (fun s => ACTION_BASE_RISK.lookup s)).getD (25 / 100)
  let score := (0 : ℚ) + base
  -- 2. Tone (`in ("urgent", "escalated")` is equality, never raises)
  let tone := action_step.tone.getD (.pstr "")
  let score :=
    if tone = .pstr "urgent" ∨ tone = .pstr "escalated" then score + 15 / 100
    else score
  -- 3. Recovery value: ordered comparison — may raise TypeError
  let recovery := strategy.estimated_recovery.getD (.pnum 0)
  let hi ← py_gt recovery 50000
  let score ←
    if hi then pure (score + 30 / 100)
    else do
      let mid ← py_gt recovery 10000
      pure (if mid then score + 15 / 100 else score)
  -- 4. Account churn risk level (`dict.get` with default, never raises)
  let risk_level := account_risk.risk_level.getD (.pstr "LOW")
  let risk_bonus := ((py_str_key risk_level).bind
    (fun s => RISK_LEVEL_BONUS.lookup s)).getD 0
  let score := if risk_bonus > 0 then score + risk_bonus else score
  -- 5. Escalation flag: truthiness test, never raises
  let score :=
    if py_truthy (account_risk.escalation_required.getD (.pbool false)) then
      score + 15 / 100
    else score
  -- 6. Recovery probability: ordered comparison — may raise TypeError
  let recovery_prob := account_risk.recovery_probability.getD (.pnum (50 / 100))
  let lo ← py_lt recovery_prob (30 / 100)
  let score ←
    if lo then pure (score + 25 / 100)
    else do
      let md ← py_lt recovery_prob (50 / 100)
      pure (if md then score + 10 / 100 else score)
  -- Cap at 1.0
  pure (round2 (min score 1))

end GuardianAgent

/-! ## Reachable orchestrator states -/

/-- Queue–verdict correspondence: every queued decision sits in the queue of
its own overall verdict. -/
def queue_inv (st : OrchState) : Prop :=
  (∀ d ∈ st.guardian_approval_queue,
      d.overall_verdict = GuardianVerdict.HUMAN_APPROVAL_REQUIRED) ∧
  (∀ d ∈ st.guardian_hold_queue,
      d.overall_verdict = GuardianVerdict.HOLD_FOR_REVIEW)

/-- Queue states reachable from a fresh orchestrator by any interleaving of
GATE stages (`_run_guardian`) and human reconciliations
(`approve_guardian_decision`). -/
inductive Reachable : OrchState → Prop where
  | init : Reachable init_state
  | gate (risk_by_account : List (String × AccountRisk))
      (strategies : List Strategy) (st : OrchState) (h : Reachable st) :
      Reachable (run_guardian risk_by_account strategies st).2.2
  | reconcile (st : OrchState) (account_id : String) (approved : Bool)
      (notes : String) (h : Reachable st) :
      Reachable (approve_guardian_decision st account_id approved notes).state

/-! ## Concrete inputs used by the worked examples and witnesses -/

/-- The action step of the spec's worked example: kind `email`
(the spec's message-send, base 0.30), tone `urgent`. -/
def example_step : ActionStep :=
  { step := some 1, action := some "email", tone := some "urgent" }

/-- The strategy of the spec's worked example: estimated recovery 60,000. -/
def example_strategy : Strategy :=
  { account_id := "ACC-001", account_name := "Acme Corp"
    inner := some { type? := some "invoice_recovery", steps := [example_step] }
    estimated_recovery := some 60000 }

/-- The risk context of the spec's worked example: HIGH risk level,
escalation required, recovery probability 0.20. -/
def example_risk : AccountRisk :=
  { account_id := "ACC-001", risk_score := 9 / 10, risk_level := some "HIGH"
    escalation_required := some true, recovery_probability := some (20 / 100) }

/-- A strategy with no optional fields set and an empty plan. -/
def bare_strategy : Strategy :=
  { account_id := "ACC-002", account_name := "Globex"
    inner := none, estimated_recovery := none }

/-- An action step with every optional field missing. -/
def bare_step : ActionStep := { step := none, action := none, tone := none }

/-- A risk context with every optional scoring field missing. -/
def bare_risk : AccountRisk :=
  { account_id := "ACC-002", risk_score := 0, risk_level := none
    escalation_required := none, recovery_probability := none }

/-- A concrete queued decision used by the reconcile witnesses. -/
def sample_decision : StrategyDecision :=
  { account_id := "ACC-001", account_name := "Acme Corp", strategy_type := none
    estimated_recovery := 0, overall_risk_score := 50 / 100
    overall_verdict := .HUMAN_APPROVAL_REQUIRED, step_decisions := []
    strategy := bare_strategy, account_risk := bare_risk }

end RevenuePilot

namespace RevenuePilot

open GuardianAgent

/-! ## Rounding and lookup helper lemmas -/

theorem round2_mono {a b : ℚ} (h : a ≤ b) : round2 a ≤ round2 b := by
  unfold round2
  have hr : round (a * 100) ≤ round (b * 100) := by
    rw [round_eq, round_eq]
    exact Int.floor_le_floor (by linarith)
  have h2 : ((round (a * 100) : ℤ) : ℚ) ≤ ((round (b * 100) : ℤ) : ℚ) :=
    Int.cast_le.mpr hr
  linarith

theorem round2_zero : round2 0 = 0 := by
  simp [round2]

theorem round2_one : round2 1 = 1 := by
  unfold round2
  rw [show ((1 : ℚ) * 100) = ((100 : ℤ) : ℚ) by norm_num, round_intCast]
  norm_num

theorem round2_int_div (n : ℤ) : round2 ((n : ℚ) / 100) = (n : ℚ) / 100 := by
  unfold round2
  rw [show ((n : ℚ) / 100 * 100) = ((n : ℤ) : ℚ) by field_simp, round_intCast]

theorem lookup_getD_nonneg (l : List (String × ℚ)) (d : ℚ) (hd : 0 ≤ d)
    (hl : ∀ p ∈ l, 0 ≤ p.2) (a : String) : 0 ≤ (l.lookup a).getD d := by
  induction l with
  | nil => simpa [List.lookup]
  | cons p tl ih =>
      obtain ⟨k, v⟩ := p
      simp only [List.lookup]
      cases h : (a == k)
      · exact ih fun q hq => hl q (List.mem_cons_of_mem _ hq)
      · simpa using hl ⟨k, v⟩ (List.mem_cons_self _ _)

theorem base_delta_nonneg (s : ActionStep) : 0 ≤ base_delta s := by
  unfold base_delta
  refine lookup_getD_nonneg _ _ (by norm_num) ?_ _
  intro p hp
  obtain ⟨k, v⟩ := p
  simp only [ACTION_BASE_RISK, List.mem_cons, List.not_mem_nil, or_false,
    Prod.mk.injEq] at hp
  rcases hp with ⟨-, h⟩ | ⟨-, h⟩ | ⟨-, h⟩ | ⟨-, h⟩ | ⟨-, h⟩ | ⟨-, h⟩ | ⟨-, h⟩ <;>
    norm_num [h]

theorem risk_level_delta_nonneg (r : AccountRisk) : 0 ≤ risk_level_delta r := by
  simp only [risk_level_delta]
  split_ifs with h
  · exact le_of_lt h
  · exact le_refl 0

theorem raw_sum_nonneg (s : ActionStep) (st : Strategy) (r : AccountRisk) :
    0 ≤ raw_sum s st r := by
  simp only [raw_sum, tone_delta, recovery_delta, escalation_delta, prob_delta]
  have h1 := base_delta_nonneg s
  have h4 := risk_level_delta_nonneg r
  split_ifs <;> linarith

set_option maxHeartbeats 1600000 in
/-- The capped, rounded score that `score_action` returns is exactly
`round2 (min (raw_sum …) 1)`. -/
theorem score_action_fst (s : ActionStep) (st : Strategy) (r : AccountRisk) :
    (score_action s st r).1 = round2 (min (raw_sum s st r) 1) := by
  simp only [score_action, raw_sum, base_delta, tone_delta, recovery_delta,
    risk_level_delta, escalation_delta, prob_delta]
  split_ifs <;>
    exact congrArg round2 (congrArg (fun x => min x 1) (by ring))

theorem score_action_nonneg (s : ActionStep) (st : Strategy) (r : AccountRisk) :
    0 ≤ (score_action s st r).1 := by
  rw [score_action_fst]
  have h0 : (0 : ℚ) ≤ min (raw_sum s st r) 1 :=
    le_min (raw_sum_nonneg s st r) (by norm_num)
  calc (0 : ℚ) = round2 0 := round2_zero.symm
    _ ≤ round2 (min (raw_sum s st r) 1) := round2_mono h0

theorem score_action_le_one (s : ActionStep) (st : Strategy) (r : AccountRisk) :
    (score_action s st r).1 ≤ 1 := by
  rw [score_action_fst]
  calc round2 (min (raw_sum s st r) 1) ≤ round2 1 :=
        round2_mono (min_le_right _ _)
    _ = 1 := round2_one

theorem score_action_int_div (s : ActionStep) (st : Strategy) (r : AccountRisk) :
    ∃ n : ℤ, (score_action s st r).1 = (n : ℚ) / 100 := by
  rw [score_action_fst]
  exact ⟨round (min (raw_sum s st r) 1 * 100), rfl⟩

end RevenuePilot

namespace RevenuePilot

open GuardianAgent

/-- Claim C2 — `get_verdict` (the spec's `classify`) realises the three-way
partition: `AUTO_EXECUTE` exactly below `0.40`, `HUMAN_APPROVAL_REQUIRED`
exactly on `[0.40, 0.70)`, and `HOLD_FOR_REVIEW` exactly at and above `0.70`;
the intervals are contiguous, non-overlapping and inclusive on their lower
ends, and, `get_verdict` being a total function, exactly one verdict is
produced for every score. -/
theorem c2_classify_partition (q : ℚ) :
    (get_verdict q = .AUTO_EXECUTE ↔ q < AUTO_EXECUTE_THRESHOLD) ∧
    (get_verdict q = .HUMAN_APPROVAL_REQUIRED ↔
      AUTO_EXECUTE_THRESHOLD ≤ q ∧ q < HOLD_THRESHOLD) ∧
    (get_verdict q = .HOLD_FOR_REVIEW ↔ HOLD_THRESHOLD ≤ q) := by
  unfold get_verdict AUTO_EXECUTE_THRESHOLD HOLD_THRESHOLD
  split_ifs with h1 h2
  · exact ⟨⟨fun _ => h1, fun _ => rfl⟩,
      ⟨fun h => (nomatch h), fun h => absurd h.1 (not_le.mpr h1)⟩,
      ⟨fun h => (nomatch h), fun h => absurd (lt_of_le_of_lt h h1) (by norm_num)⟩⟩
  · exact ⟨⟨fun h => (nomatch h), fun h => absurd h h1⟩,
      ⟨fun _ => ⟨not_lt.mp h1, h2⟩, fun _ => rfl⟩,
      ⟨fun h => (nomatch h), fun h => absurd h2 (not_lt.mpr h)⟩⟩
  · exact ⟨⟨fun h => (nomatch h), fun h => absurd h h1⟩,
      ⟨fun h => (nomatch h), fun h => absurd h.2 h2⟩,
      ⟨fun _ => not_lt.mp h2, fun _ => rfl⟩⟩

/-! ## Maximum-accumulator lemmas for the `worst_score` loop -/

theorem if_gt_eq_max (a b : ℚ) : (if a > b then a else b) = max b a := by
  split_ifs with h
  · exact (max_eq_right h.le).symm
  · exact (max_eq_left (not_lt.mp h)).symm

theorem self_le_foldl_max : ∀ (l : List ℚ) (a : ℚ), a ≤ l.foldl max a := by
  intro l
  induction l with
  | nil => intro a; exact le_refl a
  | cons x t ih =>
      intro a
      exact le_trans (le_max_left a x) (ih (max a x))

theorem foldl_max_le_of_mem :
    ∀ (l : List ℚ) (a x : ℚ), x ∈ l → x ≤ l.foldl max a := by
  intro l
  induction l with
  | nil => intro a x hx; exact absurd hx (List.not_mem_nil x)
  | cons y t ih =>
      intro a x hx
      rcases List.mem_cons.mp hx with h | h
      · subst h
        exact le_trans (le_max_right a x) (self_le_foldl_max t (max a x))
      · exact ih (max a y) x h

theorem foldl_max_eq_or_mem :
    ∀ (l : List ℚ) (a : ℚ), l.foldl max a = a ∨ l.foldl max a ∈ l := by
  intro l
  induction l with
  | nil => intro a; exact Or.inl rfl
  | cons y t ih =>
      intro a
      rcases ih (max a y) with h | h
      · rcases max_choice a y with hm | hm
        · exact Or.inl (by rw [List.foldl_cons, h, hm])
        · exact Or.inr (by rw [List.foldl_cons, h, hm]; exact List.mem_cons_self _ _)
      · exact Or.inr (List.mem_cons_of_mem _ h)

theorem foldl_max_int_div :
    ∀ (l : List ℚ), (∀ x ∈ l, ∃ n : ℤ, x = (n : ℚ) / 100) →
      ∀ (a : ℚ), (∃ n : ℤ, a = (n : ℚ) / 100) →
        ∃ n : ℤ, l.foldl max a = (n : ℚ) / 100 := by
  intro l
  induction l with
  | nil => intro _ a ha; exact ha
  | cons x t ih =>
      intro hl a ha
      obtain ⟨n, hn⟩ := ha
      obtain ⟨m, hm⟩ := hl x (List.mem_cons_self _ _)
      refine ih (fun y hy => hl y (List.mem_cons_of_mem _ hy)) (max a x) ⟨max n m, ?_⟩
      rcases le_total n m with h | h
      · have hq : a ≤ x := by
          rw [hn, hm]
          have : (n : ℚ) ≤ (m : ℚ) := Int.cast_le.mpr h
          linarith
        rw [max_eq_right hq, hm, max_eq_right h]
      · have hq : x ≤ a := by
          rw [hn, hm]
          have : (m : ℚ) ≤ (n : ℚ) := Int.cast_le.mpr h
          linarith
        rw [max_eq_left hq, hn, max_eq_left h]

/-! ## The `evaluate_strategy` step loop -/

theorem evaluate_steps_fst (strategy : Strategy) (account_risk : AccountRisk) :
    ∀ (steps : List ActionStep) (w : ℚ),
      (GuardianAgent.evaluate_steps strategy account_risk steps w).1.map
          StepDecision.risk_score
        = steps.map fun s => (GuardianAgent.score_action s strategy account_risk).1 := by
  intro steps
  induction steps with
  | nil => intro w; rfl
  | cons s t ih =>
      intro w
      simp only [GuardianAgent.evaluate_steps, List.map_cons, List.map]
      exact congrArg _ (ih _)

theorem evaluate_steps_snd (strategy : Strategy) (account_risk : AccountRisk) :
    ∀ (steps : List ActionStep) (w : ℚ),
      (GuardianAgent.evaluate_steps strategy account_risk steps w).2
        = (steps.map fun s =>
            (GuardianAgent.score_action s strategy account_risk).1).foldl max w := by
  intro steps
  induction steps with
  | nil => intro w; rfl
  | cons s t ih =>
      intro w
      simp only [GuardianAgent.evaluate_steps, List.map_cons, List.foldl_cons]
      rw [ih, if_gt_eq_max]

/-! ## Claim C1 — worst-of aggregation in `evaluate_strategy` -/

/-- Claim C1 — for every strategy and account-risk context, `evaluate_strategy`
sets the overall risk score to the maximum of the per-step scores (the fold
of `max` over them, which both bounds every step score and is attained by
one of them when any steps exist) and derives the overall verdict as
`get_verdict` of that overall score, never independently; a strategy whose
steps list is empty gets overall score `0` and verdict `AUTO_EXECUTE`. -/
theorem c1_overall_is_worst_of (strategy : Strategy) (account_risk : AccountRisk) :
    let d := GuardianAgent.evaluate_strategy strategy account_risk
    d.overall_risk_score = (d.step_decisions.map StepDecision.risk_score).foldl max 0
    ∧ d.overall_verdict = GuardianAgent.get_verdict d.overall_risk_score
    ∧ (∀ sd ∈ d.step_decisions, sd.risk_score ≤ d.overall_risk_score)
    ∧ (d.step_decisions ≠ [] →
        d.overall_risk_score ∈ d.step_decisions.map StepDecision.risk_score)
    ∧ ((strategy.inner.map StrategyInner.steps).getD [] = [] →
        d.overall_risk_score = 0 ∧ d.overall_verdict = GuardianVerdict.AUTO_EXECUTE) := by
  intro d
  have hdec : d.step_decisions =
      (GuardianAgent.evaluate_steps strategy account_risk
        ((strategy.inner.map StrategyInner.steps).getD []) 0).1 := rfl
  have hscore : d.overall_risk_score =
      round2 (GuardianAgent.evaluate_steps strategy account_risk
        ((strategy.inner.map StrategyInner.steps).getD []) 0).2 := rfl
  have hverd : d.overall_verdict =
      GuardianAgent.get_verdict (GuardianAgent.evaluate_steps strategy account_risk
        ((strategy.inner.map StrategyInner.steps).getD []) 0).2 := rfl
  have hmap := evaluate_steps_fst strategy account_risk
    ((strategy.inner.map StrategyInner.steps).getD []) 0
  have hsnd := evaluate_steps_snd strategy account_risk
    ((strategy.inner.map StrategyInner.steps).getD []) 0
  have hint : ∃ n : ℤ,
      (GuardianAgent.evaluate_steps strategy account_risk
        ((strategy.inner.map StrategyInner.steps).getD []) 0).2 = (n : ℚ) / 100 := by
    rw [hsnd]
    refine foldl_max_int_div _ ?_ 0 ⟨0, by norm_num⟩
    intro x hx
    obtain ⟨s, _, hs⟩ := List.mem_map.mp hx
    exact hs ▸ score_action_int_div s strategy account_risk
  have hround : round2 (GuardianAgent.evaluate_steps strategy account_risk
      ((strategy.inner.map StrategyInner.steps).getD []) 0).2 =
      (GuardianAgent.evaluate_steps strategy account_risk
      ((strategy.inner.map StrategyInner.steps).getD []) 0).2 := by
    obtain ⟨n, hn⟩ := hint
    rw [hn, round2_int_div]
  refine ⟨?_, ?_, ?_, ?_, ?_⟩
  · rw [hscore, hround, hsnd, hdec, hmap]
  · rw [hverd, hscore, hround]
  · intro sd hsd
    rw [hscore, hround, hsnd]
    refine foldl_max_le_of_mem _ _ _ ?_
    rw [← hmap]
    exact List.mem_map_of_mem StepDecision.risk_score (hdec ▸ hsd)
  · intro hne
    rw [hscore, hround, hsnd, hdec, hmap]
    rcases foldl_max_eq_or_mem
        (((strategy.inner.map StrategyInner.steps).getD []).map fun s =>
          (GuardianAgent.score_action s strategy account_risk).1) 0 with h0 | hmem
    · rw [h0]
      rcases hl : ((strategy.inner.map StrategyInner.steps).getD []).map fun s =>
          (GuardianAgent.score_action s strategy account_risk).1 with _ | ⟨x, t⟩
      · exfalso
        apply hne
        rw [hdec]
        exact List.map_eq_nil_iff.mp (hmap.trans hl)
      · have hxmem : x ∈ ((strategy.inner.map StrategyInner.steps).getD []).map
            fun s => (GuardianAgent.score_action s strategy account_risk).1 := by
          rw [hl]; exact List.mem_cons_self _ _
        have hle : x ≤ 0 := by
          have hb := foldl_max_le_of_mem _ 0 x hxmem
          rw [h0] at hb
          exact hb
        have hge : 0 ≤ x := by
          obtain ⟨s, _, hs⟩ := List.mem_map.mp hxmem
          exact hs ▸ score_action_nonneg s strategy account_risk
        have hx0 : x = 0 := le_antisymm hle hge
        rw [← hx0]
        exact List.mem_cons_self _ _
    · exact hmem
  · intro hempty
    constructor
    · rw [hscore, hempty]
      exact round2_zero
    · rw [hverd, hempty]
      show GuardianAgent.get_verdict 0 = GuardianVerdict.AUTO_EXECUTE
      norm_num [GuardianAgent.get_verdict, GuardianAgent.AUTO_EXECUTE_THRESHOLD]

/-- Witness for C1 at a concrete zero-step strategy. -/
theorem c1_witness :
    (GuardianAgent.evaluate_strategy bare_strategy bare_risk).overall_risk_score = 0
    ∧ (GuardianAgent.evaluate_strategy bare_strategy bare_risk).overall_verdict
      = GuardianVerdict.AUTO_EXECUTE := by
  have h := c1_overall_is_worst_of bare_strategy bare_risk
  exact h.2.2.2.2 rfl

/-! ## Claim C3 — additive scoring, cap, rounding, range -/

/-- Claim C3 — for every step, strategy and risk context, `score_action`
returns the sum of the applicable deltas capped at `1` and rounded to two
decimals, hence a score in `[0, 1]`; and on the spec's worked example
(base 0.30, urgent tone, recovery 60,000, HIGH risk, escalation required,
recovery probability 0.20) the raw sum is 1.35, the returned score is 1.00,
and its verdict is HOLD_FOR_REVIEW. -/
theorem c3_score_is_capped_sum :
    (∀ (s : ActionStep) (st : Strategy) (r : AccountRisk),
        (GuardianAgent.score_action s st r).1
          = round2 (min (GuardianAgent.raw_sum s st r) 1)
        ∧ 0 ≤ (GuardianAgent.score_action s st r).1
        ∧ (GuardianAgent.score_action s st r).1 ≤ 1)
    ∧ GuardianAgent.raw_sum example_step example_strategy example_risk = 135 / 100
    ∧ (GuardianAgent.score_action example_step example_strategy example_risk).1 = 1
    ∧ GuardianAgent.get_verdict
        (GuardianAgent.score_action example_step example_strategy example_risk).1
      = GuardianVerdict.HOLD_FOR_REVIEW := by
  have hraw : GuardianAgent.raw_sum example_step example_strategy example_risk
      = 135 / 100 := by
    norm_num [GuardianAgent.raw_sum, GuardianAgent.base_delta,
      GuardianAgent.tone_delta, GuardianAgent.recovery_delta,
      GuardianAgent.risk_level_delta, GuardianAgent.escalation_delta,
      GuardianAgent.prob_delta, example_step, example_strategy, example_risk,
      GuardianAgent.ACTION_BASE_RISK, GuardianAgent.RISK_LEVEL_BONUS,
      List.lookup, show ("HIGH" == "LOW") = false by decide,
      show ("HIGH" == "MEDIUM") = false by decide]
  have hsc : (GuardianAgent.score_action example_step example_strategy
      example_risk).1 = 1 := by
    rw [score_action_fst, hraw,
      min_eq_right (by norm_num : (1 : ℚ) ≤ 135 / 100)]
    exact round2_one
  refine ⟨fun s st r =>
    ⟨score_action_fst s st r, score_action_nonneg s st r,
      score_action_le_one s st r⟩, hraw, hsc, ?_⟩
  rw [hsc]
  norm_num [GuardianAgent.get_verdict, GuardianAgent.AUTO_EXECUTE_THRESHOLD,
    GuardianAgent.HOLD_THRESHOLD]

/-! ## Claim C4 — failure semantics of the optional scoring fields -/

theorem except_bind_ok {α β : Type} (a : α) (f : α → Except String β) :
    (Except.ok a >>= f) = f a := rfl

theorem except_pure_eq {α : Type} (a : α) :
    (pure a : Except String α) = Except.ok a := rfl

theorem py_gt_pnum (q c : ℚ) : py_gt (.pnum q) c = .ok (decide (q > c)) := rfl

theorem py_lt_pnum (q c : ℚ) : py_lt (.pnum q) c = .ok (decide (q < c)) := rfl

/-- Claim C4 counterexample — a malformed (string-valued) `estimated_recovery`
makes `score_action` raise a `TypeError` at the `recovery > 50_000`
comparison instead of being absorbed as a safe default, so the claim fails
for malformed fields. -/
theorem c4_counterexample :
    GuardianAgent.score_action_dyn { action := none, tone := none }
      { estimated_recovery := some (.pstr "sixty thousand") }
      { risk_level := none, escalation_required := none,
        recovery_probability := none }
      = .error "TypeError" := rfl

/-- Claim C4, amended — every input whose optional scoring fields (tone,
recovery value, risk level, escalation flag, recovery probability) are
*missing* is scored without raising, each missing field acting as its safest
default so that only the base delta applies; this holds both in the
dynamically-typed embedding and in the typed one (malformed string-valued
recovery value or probability, by contrast, raises — see the
counterexample). -/
theorem c4_missing_fields_defaulted :
    (∀ (sd : ActionStepDyn) (std : StrategyDyn) (rd : AccountRiskDyn),
        sd.tone = none → std.estimated_recovery = none → rd.risk_level = none →
        rd.escalation_required = none → rd.recovery_probability = none →
        GuardianAgent.score_action_dyn sd std rd
          = .ok (round2 (min (((py_str_key (sd.action.getD (.pstr "email"))).bind
              (fun s => GuardianAgent.ACTION_BASE_RISK.lookup s)).getD (25 / 100)) 1)))
    ∧ (∀ (s : ActionStep) (st : Strategy) (r : AccountRisk),
        s.tone = none → st.estimated_recovery = none → r.risk_level = none →
        r.escalation_required = none → r.recovery_probability = none →
        (GuardianAgent.score_action s st r).1
          = round2 (min (GuardianAgent.base_delta s) 1)) := by
  constructor
  · intro sd std rd h1 h2 h3 h4 h5
    obtain ⟨a, t⟩ := sd
    obtain ⟨er⟩ := std
    obtain ⟨rl, es, rp⟩ := rd
    simp only at h1 h2 h3 h4 h5
    subst h1 h2 h3 h4 h5
    have hgt1 : py_gt (PyVal.pnum 0) 50000 = .ok false := by
      rw [py_gt_pnum]
      norm_num
    have hgt2 : py_gt (PyVal.pnum 0) 10000 = .ok false := by
      rw [py_gt_pnum]
      norm_num
    have hlt1 : py_lt (PyVal.pnum (50 / 100)) (30 / 100) = .ok false := by
      rw [py_lt_pnum]
      norm_num
    have hlt2 : py_lt (PyVal.pnum (50 / 100)) (50 / 100) = .ok false := by
      rw [py_lt_pnum]
      norm_num
    simp only [GuardianAgent.score_action_dyn, Option.getD_none, Option.getD_some,
      hgt1, hgt2, hlt1, hlt2, except_bind_ok, except_pure_eq, py_truthy,
      py_str_key, Bool.false_eq_true, if_false, GuardianAgent.RISK_LEVEL_BONUS]
    norm_num [List.lookup, show ¬((("" : String) = "urgent") ∨ (("" : String) = "escalated")) by decide,
      show ("LOW" == "LOW") = true by decide]
  · intro s st r h1 h2 h3 h4 h5
    rw [score_action_fst]
    have : GuardianAgent.raw_sum s st r = GuardianAgent.base_delta s := by
      simp only [GuardianAgent.raw_sum, GuardianAgent.tone_delta,
        GuardianAgent.recovery_delta, GuardianAgent.risk_level_delta,
        GuardianAgent.escalation_delta, GuardianAgent.prob_delta,
        h1, h2, h3, h4, h5, Option.getD_none, GuardianAgent.RISK_LEVEL_BONUS]
      norm_num [List.lookup]
      exact ⟨by decide, by decide⟩
    rw [this]

/-- Witness for C4 (amended) at concrete all-missing inputs. -/
theorem c4_witness :
    GuardianAgent.score_action_dyn { action := none, tone := none }
      { estimated_recovery := none }
      { risk_level := none, escalation_required := none,
        recovery_probability := none }
      = .ok (round2 (min (30 / 100) 1))
    ∧ (GuardianAgent.score_action bare_step bare_strategy bare_risk).1
      = round2 (min (GuardianAgent.base_delta bare_step) 1) := by
  have h := c4_missing_fields_defaulted
  refine ⟨?_, h.2 bare_step bare_strategy bare_risk rfl rfl rfl rfl rfl⟩
  have h1 := h.1 { action := none, tone := none } { estimated_recovery := none }
    { risk_level := none, escalation_required := none,
      recovery_probability := none } rfl rfl rfl rfl rfl
  rw [h1]
  norm_num [py_str_key, GuardianAgent.ACTION_BASE_RISK, List.lookup,
    show ("email" == "email") = true by decide]

/-! ## Claim C5 — the base-risk lookup table -/

/-- Claim C5 counterexample — the chat-post kind (`slack`, base 0.10) does
*not* have the lowest base risk: the escalation-route kind (`escalation`)
has base 0.05, strictly lower. -/
theorem c5_counterexample :
    GuardianAgent.ACTION_BASE_RISK.lookup "escalation" = some (5 / 100)
    ∧ GuardianAgent.ACTION_BASE_RISK.lookup "slack" = some (10 / 100)
    ∧ ¬ (∀ p ∈ GuardianAgent.ACTION_BASE_RISK,
          (GuardianAgent.ACTION_BASE_RISK.lookup "slack").getD (25 / 100) ≤ p.2) := by
  refine ⟨rfl, rfl, fun h => ?_⟩
  have hm : ("escalation", (5 : ℚ) / 100) ∈ GuardianAgent.ACTION_BASE_RISK := by
    simp [GuardianAgent.ACTION_BASE_RISK]
  have hle := h _ hm
  rw [show GuardianAgent.ACTION_BASE_RISK.lookup "slack" = some (10 / 100)
    from rfl] at hle
  norm_num at hle

/-- Claim C5, amended — the base risk by action kind comes from the fixed
lookup table `ACTION_BASE_RISK`, in which the escalation-route kind
(`escalation`, 0.05) has the lowest base risk and the fee-waiver kind
(`late_fee_waiver`, 0.40) the highest; every kind not in the table gets the
default base 0.25, which lies strictly between the two extremes
(mid-range).  (The claim's «chat-post lowest» fails: see the
counterexample.) -/
theorem c5_base_table_bounds :
    (∀ p ∈ GuardianAgent.ACTION_BASE_RISK, (5 : ℚ) / 100 ≤ p.2 ∧ p.2 ≤ 40 / 100)
    ∧ GuardianAgent.ACTION_BASE_RISK.lookup "escalation" = some (5 / 100)
    ∧ GuardianAgent.ACTION_BASE_RISK.lookup "late_fee_waiver" = some (40 / 100)
    ∧ (∀ k : String, GuardianAgent.ACTION_BASE_RISK.lookup k = none →
        (GuardianAgent.ACTION_BASE_RISK.lookup k).getD (25 / 100) = 25 / 100)
    ∧ ((5 : ℚ) / 100 < 25 / 100 ∧ (25 : ℚ) / 100 < 40 / 100) := by
  refine ⟨?_, rfl, rfl, ?_, by norm_num⟩
  · intro p hp
    obtain ⟨k, v⟩ := p
    simp only [GuardianAgent.ACTION_BASE_RISK, List.mem_cons, List.not_mem_nil,
      or_false, Prod.mk.injEq] at hp
    rcases hp with ⟨-, h⟩ | ⟨-, h⟩ | ⟨-, h⟩ | ⟨-, h⟩ | ⟨-, h⟩ | ⟨-, h⟩ | ⟨-, h⟩ <;>
      subst h <;> exact ⟨by norm_num, by norm_num⟩
  · intro k hk
    rw [hk]
    rfl

/-- Witness for C5 (amended) at the `slack` entry and an unknown kind. -/
theorem c5_witness :
    ((5 : ℚ) / 100 ≤ (("slack", (10 : ℚ) / 100)).2
      ∧ (("slack", (10 : ℚ) / 100)).2 ≤ 40 / 100)
    ∧ (GuardianAgent.ACTION_BASE_RISK.lookup "calendar_invite").getD (25 / 100)
      = 25 / 100 := by
  exact ⟨c5_base_table_bounds.1 ("slack", 10 / 100)
      (by simp [GuardianAgent.ACTION_BASE_RISK]),
    c5_base_table_bounds.2.2.2.1 "calendar_invite" rfl⟩

/-! ## Claim C6 — reconcile removes exactly one queued decision -/

theorem removeFirst_fst_none_iff (aid : String) (l : List StrategyDecision) :
    (removeFirst aid l).1 = none
      ↔ l.countP (fun d => d.account_id == aid) = 0 := by
  induction l with
  | nil => simp [removeFirst]
  | cons d ds ih =>
      by_cases h : d.account_id = aid
      · simp [removeFirst, h, List.countP_cons]
      · simp [removeFirst, h, List.countP_cons, ih]

theorem removeFirst_fst_some (aid : String) (l : List StrategyDecision)
    (d : StrategyDecision) (h : (removeFirst aid l).1 = some d) :
    d.account_id = aid
    ∧ (removeFirst aid l).2.length + 1 = l.length
    ∧ (removeFirst aid l).2.countP (fun x => x.account_id == aid) + 1
      = l.countP (fun x => x.account_id == aid) := by
  induction l with
  | nil => simp [removeFirst] at h
  | cons e es ih =>
      by_cases he : e.account_id = aid
      · simp only [removeFirst, if_pos he] at h ⊢
        obtain rfl : e = d := by injection h
        refine ⟨he, rfl, ?_⟩
        simp [List.countP_cons, he]
      · have hpe : (e.account_id == aid) = false := by simp [he]
        simp only [removeFirst, if_neg he] at h ⊢
        obtain ⟨h1, h2, h3⟩ := ih h
        refine ⟨h1, ?_, ?_⟩
        · simp only [List.length_cons]
          omega
        · simp only [List.countP_cons, hpe]
          simp only [Bool.false_eq_true, if_false]
          omega

theorem removeFirst_snd_of_none (aid : String) (l : List StrategyDecision)
    (h : (removeFirst aid l).1 = none) : (removeFirst aid l).2 = l := by
  induction l with
  | nil => rfl
  | cons e es ih =>
      by_cases he : e.account_id = aid
      · simp [removeFirst, if_pos he] at h
      · simp only [removeFirst, if_neg he] at h ⊢
        rw [ih h]

theorem removeFirst_fst_of_countP_pos (aid : String) (l : List StrategyDecision)
    (h : l.countP (fun d => d.account_id == aid) ≠ 0) :
    ∃ d, (removeFirst aid l).1 = some d := by
  rcases he : (removeFirst aid l).1 with _ | d
  · exact absurd ((removeFirst_fst_none_iff aid l).mp he) h
  · exact ⟨d, rfl⟩

theorem removeFirst_snd_mem (aid : String) (l : List StrategyDecision) :
    ∀ x ∈ (removeFirst aid l).2, x ∈ l := by
  induction l with
  | nil => intro x hx; exact absurd hx (List.not_mem_nil x)
  | cons e es ih =>
      intro x hx
      by_cases he : e.account_id = aid
      · simp only [removeFirst, if_pos he] at hx
        exact List.mem_cons_of_mem e hx
      · simp only [removeFirst, if_neg he] at hx
        rcases List.mem_cons.mp hx with h | h
        · exact h ▸ List.mem_cons_self e es
        · exact List.mem_cons_of_mem e (ih x h)

theorem reconcile_not_found (st : OrchState) (aid : String) (approved : Bool)
    (notes : String)
    (h1 : st.guardian_approval_queue.countP (fun d => d.account_id == aid) = 0)
    (h2 : st.guardian_hold_queue.countP (fun d => d.account_id == aid) = 0) :
    approve_guardian_decision st aid approved notes
      = { outcome := .not_found aid, dispatched := [], state := st } := by
  have ha : (removeFirst aid st.guardian_approval_queue).1 = none :=
    (removeFirst_fst_none_iff aid _).mpr h1
  have hb : (removeFirst aid st.guardian_hold_queue).1 = none :=
    (removeFirst_fst_none_iff aid _).mpr h2
  simp only [approve_guardian_decision, ha, hb]

theorem reconcile_state_approval (st : OrchState) (aid : String)
    (approved : Bool) (notes : String) (t : StrategyDecision)
    (h : (removeFirst aid st.guardian_approval_queue).1 = some t) :
    (approve_guardian_decision st aid approved notes).state
      = { st with guardian_approval_queue :=
            (removeFirst aid st.guardian_approval_queue).2 } := by
  simp only [approve_guardian_decision, h]
  cases approved <;> simp

theorem reconcile_state_hold (st : OrchState) (aid : String)
    (approved : Bool) (notes : String) (t : StrategyDecision)
    (ha : (removeFirst aid st.guardian_approval_queue).1 = none)
    (h : (removeFirst aid st.guardian_hold_queue).1 = some t) :
    (approve_guardian_decision st aid approved notes).state
      = { st with guardian_hold_queue :=
            (removeFirst aid st.guardian_hold_queue).2 } := by
  simp only [approve_guardian_decision, ha, h]
  cases approved <;> simp

/-- Claim C6 — when the account identifier matches exactly one queued decision
across the two gating queues, `approve_guardian_decision` removes that
decision from the queue holding it (the other queue unchanged), decreasing
the combined size by exactly one; an immediately repeated call for the same
identifier returns `not_found` and changes nothing, and a call for an
identifier matching neither queue returns `not_found` and changes nothing
(a total function — no exception). -/
theorem c6_reconcile_removes_exactly_one (st : OrchState) (aid : String)
    (approved approved2 : Bool) (notes notes2 : String) :
    (st.guardian_approval_queue.countP (fun d => d.account_id == aid)
        + st.guardian_hold_queue.countP (fun d => d.account_id == aid) = 1 →
      (approve_guardian_decision st aid approved notes).state.guardian_approval_queue.length
          + (approve_guardian_decision st aid approved notes).state.guardian_hold_queue.length + 1
        = st.guardian_approval_queue.length + st.guardian_hold_queue.length
      ∧ (((approve_guardian_decision st aid approved notes).state.guardian_approval_queue
            = st.guardian_approval_queue
          ∧ (approve_guardian_decision st aid approved notes).state.guardian_hold_queue.length + 1
            = st.guardian_hold_queue.length)
        ∨ ((approve_guardian_decision st aid approved notes).state.guardian_hold_queue
            = st.guardian_hold_queue
          ∧ (approve_guardian_decision st aid approved notes).state.guardian_approval_queue.length + 1
            = st.guardian_approval_queue.length))
      ∧ (approve_guardian_decision
            (approve_guardian_decision st aid approved notes).state aid approved2 notes2).outcome
          = .not_found aid
      ∧ (approve_guardian_decision
            (approve_guardian_decision st aid approved notes).state aid approved2 notes2).state
          = (approve_guardian_decision st aid approved notes).state)
    ∧ (st.guardian_approval_queue.countP (fun d => d.account_id == aid)
        + st.guardian_hold_queue.countP (fun d => d.account_id == aid) = 0 →
      (approve_guardian_decision st aid approved notes).outcome = .not_found aid
      ∧ (approve_guardian_decision st aid approved notes).state = st) := by
  constructor
  · intro hone
    rcases Nat.eq_zero_or_pos
        (st.guardian_approval_queue.countP (fun d => d.account_id == aid)) with hA0 | hApos
    · -- the match is in the hold queue
      have hH1 : st.guardian_hold_queue.countP (fun d => d.account_id == aid) = 1 := by
        omega
      have ha : (removeFirst aid st.guardian_approval_queue).1 = none :=
        (removeFirst_fst_none_iff aid _).mpr hA0
      obtain ⟨t, ht⟩ := removeFirst_fst_of_countP_pos aid st.guardian_hold_queue (by omega)
      have hstate := reconcile_state_hold st aid approved notes t ha ht
      obtain ⟨-, hlen, hcnt⟩ := removeFirst_fst_some aid st.guardian_hold_queue t ht
      have h2 := reconcile_not_found
        (approve_guardian_decision st aid approved notes).state aid approved2 notes2
        (by rw [hstate]; exact hA0)
        (by rw [hstate]; dsimp only; omega)
      refine ⟨?_, Or.inl ⟨?_, ?_⟩, ?_, ?_⟩
      · rw [hstate]
        dsimp only
        omega
      · rw [hstate]
      · rw [hstate]
        dsimp only
        omega
      · rw [h2]
      · rw [h2]
    · -- the match is in the approval queue
      have hA1 : st.guardian_approval_queue.countP (fun d => d.account_id == aid) = 1 := by
        omega
      have hH0 : st.guardian_hold_queue.countP (fun d => d.account_id == aid) = 0 := by
        omega
      obtain ⟨t, ht⟩ := removeFirst_fst_of_countP_pos aid st.guardian_approval_queue (by omega)
      have hstate := reconcile_state_approval st aid approved notes t ht
      obtain ⟨-, hlen, hcnt⟩ := removeFirst_fst_some aid st.guardian_approval_queue t ht
      have h2 := reconcile_not_found
        (approve_guardian_decision st aid approved notes).state aid approved2 notes2
        (by rw [hstate]; dsimp only; omega)
        (by rw [hstate]; exact hH0)
      refine ⟨?_, Or.inr ⟨?_, ?_⟩, ?_, ?_⟩
      · rw [hstate]
        dsimp only
        omega
      · rw [hstate]
      · rw [hstate]
        dsimp only
        omega
      · rw [h2]
      · rw [h2]
  · intro hzero
    have hA0 : st.guardian_approval_queue.countP (fun d => d.account_id == aid) = 0 := by
      omega
    have hH0 : st.guardian_hold_queue.countP (fun d => d.account_id == aid) = 0 := by
      omega
    rw [reconcile_not_found st aid approved notes hA0 hH0]
    exact ⟨rfl, rfl⟩

/-- Witness for C6 at a one-element approval queue. -/
theorem c6_witness :
    ((approve_guardian_decision ⟨[sample_decision], []⟩ "ACC-001" false "n").state.guardian_approval_queue.length
        + (approve_guardian_decision ⟨[sample_decision], []⟩ "ACC-001" false "n").state.guardian_hold_queue.length + 1
      = 1)
    ∧ (approve_guardian_decision
          (approve_guardian_decision ⟨[sample_decision], []⟩ "ACC-001" false "n").state
          "ACC-001" true "m").outcome = .not_found "ACC-001"
    ∧ (approve_guardian_decision ⟨[], []⟩ "ACC-001" true "n").outcome
      = .not_found "ACC-001" := by
  have h := c6_reconcile_removes_exactly_one ⟨[sample_decision], []⟩ "ACC-001" false true "n" "m"
  have h0 := c6_reconcile_removes_exactly_one ⟨[], []⟩ "ACC-001" true true "n" "m"
  have h1 := h.1 (by simp [sample_decision])
  exact ⟨h1.1, h1.2.2.1, (h0.2 (by simp)).1⟩

/-! ## Claim C7 — rejecting never dispatches to the ExecutionAgent -/

/-- Claim C7 — a reconcile call with `approved = false` hands no strategy to
the ExecutionAgent, and its outcome is the rejected dict carrying the notes
and the removed decision's risk score (or `not_found` when no queued
decision matches). -/
theorem c7_reject_never_executes (st : OrchState) (aid : String) (notes : String) :
    (approve_guardian_decision st aid false notes).dispatched = []
    ∧ (approve_guardian_decision st aid false notes).outcome =
      (match (removeFirst aid st.guardian_approval_queue).1 with
       | some t => GuardianOutcome.rejected aid notes t.overall_risk_score
       | none =>
         match (removeFirst aid st.guardian_hold_queue).1 with
         | some t => GuardianOutcome.rejected aid notes t.overall_risk_score
         | none => GuardianOutcome.not_found aid) := by
  rcases h1 : (removeFirst aid st.guardian_approval_queue).1 with _ | t
  · rcases h2 : (removeFirst aid st.guardian_hold_queue).1 with _ | t
    · simp [approve_guardian_decision, h1, h2]
    · simp [approve_guardian_decision, h1, h2]
  · simp [approve_guardian_decision, h1]

/-! ## Claim C8 — the GATE stage partitions strategies into three buckets -/

theorem decision_for_strategy (risk_by : List (String × AccountRisk))
    (s : Strategy) : (decision_for risk_by s).strategy = s := rfl

theorem guardian_loop_spec (risk_by : List (String × AccountRisk)) :
    ∀ (strategies : List Strategy) (st : OrchState),
      (guardian_loop risk_by strategies st).auto_execute.length
          + (guardian_loop risk_by strategies st).approval_required.length
          + (guardian_loop risk_by strategies st).held.length
        = strategies.length
      ∧ (guardian_loop risk_by strategies st).auto_execute
        = strategies.filter (fun s =>
            decide ((decision_for risk_by s).overall_verdict = .AUTO_EXECUTE))
      ∧ (guardian_loop risk_by strategies st).approval_required
        = (strategies.map (decision_for risk_by)).filter (fun d =>
            decide (d.overall_verdict = .HUMAN_APPROVAL_REQUIRED))
      ∧ (guardian_loop risk_by strategies st).held
        = (strategies.map (decision_for risk_by)).filter (fun d =>
            decide (d.overall_verdict = .HOLD_FOR_REVIEW))
      ∧ (guardian_loop risk_by strategies st).state.guardian_approval_queue
        = st.guardian_approval_queue
            ++ (guardian_loop risk_by strategies st).approval_required
      ∧ (guardian_loop risk_by strategies st).state.guardian_hold_queue
        = st.guardian_hold_queue ++ (guardian_loop risk_by strategies st).held := by
  intro strategies
  induction strategies with
  | nil =>
      intro st
      exact ⟨rfl, rfl, rfl, rfl, by simp [guardian_loop], by simp [guardian_loop]⟩
  | cons s ss ih =>
      intro st
      rcases hv : (decision_for risk_by s).overall_verdict with _ | _ | _
      · -- AUTO_EXECUTE
        obtain ⟨ih1, ih2, ih3, ih4, ih5, ih6⟩ := ih st
        refine ⟨?_, ?_, ?_, ?_, ?_, ?_⟩
        · simp [guardian_loop, hv]
          omega
        · simp [guardian_loop, hv, ih2, decision_for_strategy]
        · simp [guardian_loop, hv, ih3]
        · simp [guardian_loop, hv, ih4]
        · simp [guardian_loop, hv, ih5]
        · simp [guardian_loop, hv, ih6]
      · -- HUMAN_APPROVAL_REQUIRED
        obtain ⟨ih1, ih2, ih3, ih4, ih5, ih6⟩ :=
          ih { st with guardian_approval_queue :=
            st.guardian_approval_queue ++ [decision_for risk_by s] }
        refine ⟨?_, ?_, ?_, ?_, ?_, ?_⟩
        · simp [guardian_loop, hv]
          omega
        · simp [guardian_loop, hv, ih2, decision_for_strategy]
        · simp [guardian_loop, hv, ih3]
        · simp [guardian_loop, hv, ih4]
        · simp [guardian_loop, hv, ih5]
        · simp [guardian_loop, hv, ih6]
      · -- HOLD_FOR_REVIEW
        obtain ⟨ih1, ih2, ih3, ih4, ih5, ih6⟩ :=
          ih { st with guardian_hold_queue :=
            st.guardian_hold_queue ++ [decision_for risk_by s] }
        refine ⟨?_, ?_, ?_, ?_, ?_, ?_⟩
        · simp [guardian_loop, hv]
          omega
        · simp [guardian_loop, hv, ih2, decision_for_strategy]
        · simp [guardian_loop, hv, ih3]
        · simp [guardian_loop, hv, ih4]
        · simp [guardian_loop, hv, ih5]
        · simp [guardian_loop, hv, ih6]

/-- Claim C8 — after the GATE stage every evaluated strategy lands in exactly
one of the three buckets: the bucket sizes add up to the number of
strategies evaluated (also as recorded in the run summary); the
immediate-execution list holds exactly the strategies whose decision verdict
is AUTO_EXECUTE, and the decisions appended to the approval and hold queues
are exactly those with verdict HUMAN_APPROVAL_REQUIRED and HOLD_FOR_REVIEW
respectively. -/
theorem c8_gate_partitions_strategies (risk_by : List (String × AccountRisk))
    (strategies : List Strategy) (st : OrchState) :
    (guardian_loop risk_by strategies st).auto_execute.length
        + (guardian_loop risk_by strategies st).approval_required.length
        + (guardian_loop risk_by strategies st).held.length
      = strategies.length
    ∧ (guardian_loop risk_by strategies st).auto_execute
      = strategies.filter (fun s =>
          decide ((decision_for risk_by s).overall_verdict = .AUTO_EXECUTE))
    ∧ (guardian_loop risk_by strategies st).approval_required
      = (strategies.map (decision_for risk_by)).filter (fun d =>
          decide (d.overall_verdict = .HUMAN_APPROVAL_REQUIRED))
    ∧ (guardian_loop risk_by strategies st).held
      = (strategies.map (decision_for risk_by)).filter (fun d =>
          decide (d.overall_verdict = .HOLD_FOR_REVIEW))
    ∧ (guardian_loop risk_by strategies st).state.guardian_approval_queue
      = st.guardian_approval_queue
          ++ (guardian_loop risk_by strategies st).approval_required
    ∧ (guardian_loop risk_by strategies st).state.guardian_hold_queue
      = st.guardian_hold_queue ++ (guardian_loop risk_by strategies st).held
    ∧ (run_guardian risk_by strategies st).2.1.auto_executed
        + (run_guardian risk_by strategies st).2.1.pending_human_approval
        + (run_guardian risk_by strategies st).2.1.held_for_review
      = (run_guardian risk_by strategies st).2.1.evaluated := by
  obtain ⟨h1, h2, h3, h4, h5, h6⟩ := guardian_loop_spec risk_by strategies st
  exact ⟨h1, h2, h3, h4, h5, h6, h1⟩

/-! ## Claim C9 — the PLAN stage filters on risk score > 0.70 -/

/-- Claim C9 — in the PLAN stage of `process_revenue_signals`, the list handed
to the strategy collaborator consists of exactly those assessed accounts
whose risk score strictly exceeds 0.70; every other assessed account is in
the list iff never — it is dropped from the run with no strategy generated
for it. -/
theorem c9_plan_hands_only_high_risk {α β γ δ : Type}
    (c : Collaborators α β γ δ) (accounts : List α) (st : OrchState) :
    (process_revenue_signals c accounts st).2.2.strategy_input
      = (c.risk_agent (c.data_agent accounts)).filter
          (fun r => r.risk_score > 7 / 10)
    ∧ ∀ r : AccountRisk,
        r ∈ (process_revenue_signals c accounts st).2.2.strategy_input
          ↔ r ∈ c.risk_agent (c.data_agent accounts) ∧ r.risk_score > 7 / 10 := by
  refine ⟨rfl, fun r => ?_⟩
  show r ∈ (c.risk_agent (c.data_agent accounts)).filter
      (fun r => r.risk_score > 7 / 10) ↔ _
  rw [List.mem_filter]
  simp

/-! ## Claim C10 — queue–verdict correspondence invariant -/

theorem guardian_loop_preserves_inv (risk_by : List (String × AccountRisk))
    (ss : List Strategy) (st : OrchState) (hinv : queue_inv st) :
    queue_inv (guardian_loop risk_by ss st).state := by
  obtain ⟨-, -, -, -, h5, h6⟩ := guardian_loop_spec risk_by ss st
  constructor
  · intro d hd
    rw [h5] at hd
    rcases List.mem_append.mp hd with h | h
    · exact hinv.1 d h
    · obtain ⟨-, -, h3, -, -, -⟩ := guardian_loop_spec risk_by ss st
      rw [h3] at h
      exact of_decide_eq_true (List.mem_filter.mp h).2
  · intro d hd
    rw [h6] at hd
    rcases List.mem_append.mp hd with h | h
    · exact hinv.2 d h
    · obtain ⟨-, -, -, h4, -, -⟩ := guardian_loop_spec risk_by ss st
      rw [h4] at h
      exact of_decide_eq_true (List.mem_filter.mp h).2

theorem reconcile_preserves_inv (st : OrchState) (aid : String)
    (approved : Bool) (notes : String) (hinv : queue_inv st) :
    queue_inv (approve_guardian_decision st aid approved notes).state := by
  rcases h1 : (removeFirst aid st.guardian_approval_queue).1 with _ | t
  · rcases h2 : (removeFirst aid st.guardian_hold_queue).1 with _ | t
    · have hstate : (approve_guardian_decision st aid approved notes).state = st := by
        simp [approve_guardian_decision, h1, h2]
      rw [hstate]
      exact hinv
    · rw [reconcile_state_hold st aid approved notes t h1 h2]
      exact ⟨fun d hd => hinv.1 d hd,
        fun d hd => hinv.2 d (removeFirst_snd_mem aid _ d hd)⟩
  · rw [reconcile_state_approval st aid approved notes t h1]
    exact ⟨fun d hd => hinv.1 d (removeFirst_snd_mem aid _ d hd),
      fun d hd => hinv.2 d hd⟩

/-- Claim C10 — in every queue state reachable from a fresh orchestrator by
any sequence of GATE stages and reconcile calls, every decision in the
approval queue has overall verdict HUMAN_APPROVAL_REQUIRED and every
decision in the hold queue has overall verdict HOLD_FOR_REVIEW: GATE only
appends decisions of the matching verdict and reconcile only removes, so
both operations preserve the invariant. -/
theorem c10_queue_verdict_invariant (st : OrchState) (h : Reachable st) :
    queue_inv st := by
  induction h with
  | init =>
      exact ⟨fun d hd => absurd hd (List.not_mem_nil d),
        fun d hd => absurd hd (List.not_mem_nil d)⟩
  | gate risk_by strategies st0 h0 ih =>
      exact guardian_loop_preserves_inv risk_by strategies st0 ih
  | reconcile st0 aid approved notes h0 ih =>
      exact reconcile_preserves_inv st0 aid approved notes ih

/-- Witness for C10 at the initial (reachable) state. -/
theorem c10_witness : queue_inv init_state :=
  c10_queue_verdict_invariant init_state Reachable.init
